import Mathlib

/-!
Verification of the core of `vzctl/github-helpers`:
  - `src/helpers/generate-component-matrix.ts` (change-impact matrix builder), and
  - `src/helpers/backstage-multisig-metrics.ts` (multisig hierarchy aggregator),
shallowly embedded in Lean.  TypeScript values that may be `undefined` are
modelled as `Option`; a runtime crash (dereferencing `undefined`, as produced
by an erased non-null assertion `!`) is modelled as an operation returning
`none`.  Filesystem access (`fs.existsSync`) is an injected predicate
`String → Bool`; the unbounded `while` loop of `findRoot` is given explicit
fuel so that its (non-)termination becomes provable.

JavaScript string primitives (`split`, `startsWith`, `join`, `toLowerCase`,
and `localeCompare`-based sorting, the latter modelled as the lexicographic
order on the character sequences) are implemented on `String.data` so that
every definition evaluates by kernel reduction.
-/

set_option maxRecDepth 10000

namespace GithubHelpers

/-! ## JavaScript string primitives -/

/-- `s.startsWith(pre)`. -/
def jsStartsWith (s pre : String) : Bool :=
  pre.data.isPrefixOf s.data

/-- Splitting a character list at every occurrence of `sep` (the separator is
dropped; adjacent/leading/trailing separators produce empty pieces, as in
JavaScript `String.prototype.split`). -/
def splitChars (sep : Char) : List Char → List (List Char)
  | [] => [[]]
  | c :: cs =>
    let rest := splitChars sep cs
    if c == sep then [] :: rest
    else
      match rest with
      | [] => [[c]]
      | h :: t => (c :: h) :: t

/-- `s.split(sep)` for a one-character separator (the only form the source
uses). -/
def jsSplit (s : String) (sep : Char) : List String :=
  (splitChars sep s.data).map (fun cs => String.mk cs)

/-- `parts.join(sep)` for a one-character separator. -/
def joinCharsAux (sep : Char) : List (List Char) → List Char
  | [] => []
  | x :: xs =>
    match xs with
    | [] => x
    | _ :: _ => x ++ sep :: joinCharsAux sep xs

def jsJoin (parts : List String) (sep : Char) : String :=
  String.mk (joinCharsAux sep (parts.map String.data))

/-- `s.toLowerCase()` (ASCII, which is all the source compares). -/
def jsToLower (s : String) : String :=
  String.mk (s.data.map Char.toLower)

/-- The string order used to model `a.localeCompare(b)`-based sorting:
lexicographic on the character sequences. -/
def strLe (a b : String) : Prop :=
  a.data ≤ b.data

instance (a b : String) : Decidable (strLe a b) :=
  inferInstanceAs (Decidable (a.data ≤ b.data))

instance : IsTotal String strLe :=
  ⟨fun a b => le_total a.data b.data⟩

instance : IsTrans String strLe :=
  ⟨fun _ _ _ h1 h2 => le_trans h1 h2⟩

instance : IsAntisymm String strLe :=
  ⟨fun a b h1 h2 => by
    cases a; cases b; exact congrArg String.mk (le_antisymm h1 h2)⟩

/-! ## Data model (the fields of `@backstage/catalog-model` `Entity` that the
two helpers read).  `metadata.namespace` is called `ns` (`namespace` is a Lean
keyword). -/

structure EntityMetadata where
  ns : String
  name : String
  title : Option String
  tags : Option (List String)
  annotations : Option (List (String × String))
deriving DecidableEq, Repr

/-- A relation edge `{ type, targetRef }` stored on its source entity. -/
structure Relation where
  type : String
  targetRef : String
deriving DecidableEq, Repr

/-- The `spec` object fields read by the helpers. -/
structure EntitySpec where
  type : Option String
  system : Option String
  owner : Option String
deriving DecidableEq, Repr

structure Entity where
  kind : String
  metadata : EntityMetadata
  spec : Option EntitySpec
  relations : Option (List Relation)
deriving DecidableEq, Repr

/-- Models `stringifyEntityRef` of `@backstage/catalog-model`:
`kind.toLowerCase() + ":" + (namespace or "default").toLowerCase() + "/" + name`. -/
def stringifyEntityRef (e : Entity) : String :=
  jsToLower e.kind ++ ":" ++
    (if e.metadata.ns = "" then "default" else jsToLower e.metadata.ns) ++
    "/" ++ e.metadata.name

/-- Models `parseEntityRef(ref).kind` for the full `kind:namespace/name`
reference strings produced by the catalog (the helpers only ever read `.kind`). -/
def parseRefKind (ref : String) : String :=
  (jsSplit ref ':').headD ""

/-- `item?.spec?.type` -/
def specType (e : Entity) : Option String :=
  e.spec.bind (fun s => s.type)

/-- `(e.relations || [])` -/
def relList (e : Entity) : List Relation :=
  e.relations.getD []

/-- Crash-propagating map: JavaScript `list.map(f)` where `f` may throw.
The whole map fails as soon as one element fails. -/
def mapO (f : α → Option β) : List α → Option (List β)
  | [] => some []
  | a :: l =>
    match f a with
    | none => none
    | some b =>
      match mapO f l with
      | none => none
      | some bs => some (b :: bs)

/-! ## `generate-component-matrix.ts` -/

/-- The annotation key `backstage.io/source-location`. -/
def sourceLocationKey : String := "backstage.io/source-location"

/-- `sourceLocation(entity)`: `undefined` when the entity has no annotations
object or the annotation key is absent. -/
def sourceLocation (e : Entity) : Option String :=
  e.metadata.annotations.bind
    (fun as => (as.find? (fun kv => kv.fst == sourceLocationKey)).map (fun kv => kv.snd))

/-- `sourceLocationDir(entity)`: `sourceLocation(entity)!.split('/').slice(7, -1).join('/')`.
The erased non-null assertion makes this crash (`none`) when the annotation is
absent; `slice(7, -1)` drops the first seven `/`-separated segments and the
last one. -/
def sourceLocationDir (e : Entity) : Option String :=
  (sourceLocation e).map
    (fun loc => jsJoin (((jsSplit loc '/').drop 7).dropLast) '/')

/-- One iteration of `findRoot`'s `while (dirs.length >= 0)` loop, with fuel.
`ex` is the injected `fs.existsSync`.  The body tests
`path.join('./', ...dirs, rootFile)` (the leading `./` is normalized away);
the `finally { dirs.pop() }` clause runs even when the body exits via `break`,
so on success the loop leaves `dirs` with its last element (the directory
level at which the marker was found) already popped.  `pop()` on an empty
array is a no-op, and since `dirs.length >= 0` is always true, the loop can
only exit through `break`: `none` means the fuel ran out with the loop still
running. -/
def findRootLoop (ex : String → Bool) (rootFile : String) :
    List String → Nat → Option (List String)
  | _, 0 => none
  | dirs, fuel + 1 =>
    if ex (jsJoin (dirs ++ [rootFile]) '/') then
      some dirs.dropLast
    else
      findRootLoop ex rootFile dirs.dropLast fuel

/-- `findRoot(fileName, rootFile)`: splits `fileName` on `/`, runs the search
loop, then returns `dirs.length > 0 ? dirs.join('/') : './'`.  `none` means
the loop was still running when the fuel ran out. -/
def findRoot (ex : String → Bool) (fileName rootFile : String) (fuel : Nat) :
    Option String :=
  match findRootLoop ex rootFile (jsSplit fileName '/') fuel with
  | none => none
  | some dirs =>
    some (if dirs.length > 0 then jsJoin dirs '/' else "./")

/-- The `contractItems` selection: entities whose source location starts with
`url:<repoUrl>` and whose `spec?.type === 'contract'`. -/
def contractItemsOf (items : List Entity) (repoUrl : String) : List Entity :=
  (items.filter
      (fun item => ((sourceLocation item).map
          (fun loc => jsStartsWith loc ("url:" ++ repoUrl))).getD false)).filter
    (fun item => specType item == some "contract")

/-- The `changedContracts` selection: contract items for which some changed
file **starts with the full source-location annotation string** (not the
repository-relative directory).  The erased `sourceLocation(contractItem)!`
would coerce an absent annotation to the string `"undefined"` inside
`startsWith`. -/
def changedContractsOf (contractItems : List Entity) (changedFiles : List String) :
    List Entity :=
  contractItems.filter
    (fun contractItem => changedFiles.any
      (fun file => jsStartsWith file ((sourceLocation contractItem).getD "undefined")))

/-- What the spec asserts instead: impacted iff some changed file starts with
the repository-relative source directory of the candidate. -/
def specImpacted (item : Entity) (changedFiles : List String) : Bool :=
  changedFiles.any
    (fun file => match sourceLocationDir item with
      | some dir => jsStartsWith file dir
      | none => false)

/-- One row of the returned matrix. -/
structure MatrixEntry where
  name : String
  tags : Option (List String)
  path : String
  nodeRoot : String
  runSlither : Bool
deriving DecidableEq, Repr

/-- The body of the `include` map of `generateComponentMatrix`.  Evaluation
order follows the source: `item.metadata.tags!.includes('near')` first
(crashes when `tags` is absent), then `sourceLocationDir(item)` (crashes when
the source-location annotation is absent), then
`findRoot(sourceLocationDir(item)!, 'package.json')`. -/
def buildRow (ex : String → Bool) (fuel : Nat) (changedContracts : List Entity)
    (forceAll : Bool) (item : Entity) : Option MatrixEntry :=
  match item.metadata.tags with
  | none => none
  | some tags =>
    let isSolidity : Bool := ! tags.contains "near"
    let runSlither : Bool := isSolidity && (forceAll || changedContracts.contains item)
    match sourceLocationDir item with
    | none => none
    | some dir =>
      match findRoot ex dir "package.json" fuel with
      | none => none
      | some root =>
        some { name := item.metadata.name, tags := item.metadata.tags,
               path := dir, nodeRoot := root, runSlither := runSlither }

/-- `generateComponentMatrix` (its pure core: catalog items, repo URL, changed
files and the `forceAll` flag are parameters; the `include` list is returned). -/
def generateComponentMatrix (ex : String → Bool) (fuel : Nat) (items : List Entity)
    (repoUrl : String) (changedFiles : List String) (forceAll : Bool) :
    Option (List MatrixEntry) :=
  let contractItems := contractItemsOf items repoUrl
  let changedContracts := changedContractsOf contractItems changedFiles
  mapO (buildRow ex fuel changedContracts forceAll) contractItems

/-! ## `backstage-multisig-metrics.ts` (`MultisigsCollector`) -/

/-- `MultisigSigner = { signer: Entity; owner?: Entity }` — the `owner` field
is declared optional in the source. -/
structure MultisigSigner where
  signer : Entity
  owner : Option Entity
deriving DecidableEq, Repr

structure MultisigInfo where
  entity : Entity
  signers : List MultisigSigner
deriving DecidableEq, Repr

structure ComponentMultisigs where
  title : String
  component : Entity
  multisigs : List MultisigInfo
deriving DecidableEq, Repr

structure SystemComponents where
  title : String
  system : Entity
  components : List ComponentMultisigs
deriving DecidableEq, Repr

/-- `this.entities.find(item => stringifyEntityRef(item) === ref)`:
first match in input order, `none` when no entity has this reference. -/
def entityFind (entities : List Entity) (ref : String) : Option Entity :=
  entities.find? (fun item => stringifyEntityRef item == ref)

/-- The `multisigs` filter of the constructor:
`item.kind === 'API' && item?.spec?.type === 'multisig-deployment'`. -/
def multisigsOf (entities : List Entity) : List Entity :=
  entities.filter
    (fun item => item.kind == "API" && specType item == some "multisig-deployment")

/-- `[...new Set(list)]`: deduplication keeping the first occurrence of each
element, in insertion order (`seen` accumulates the elements already kept). -/
def jsSetDedupAux (seen : List String) : List String → List String
  | [] => []
  | a :: l =>
    if a ∈ seen then jsSetDedupAux seen l
    else a :: jsSetDedupAux (a :: seen) l

def jsSetDedup (l : List String) : List String := jsSetDedupAux [] l

/-- `normalizeEntities(list)`: `[...new Set(list)].sort((a, b) => a.localeCompare(b))`
(JS sort is stable; insertion sort is the stable sort used throughout). -/
def normalizeEntities (l : List String) : List String :=
  (jsSetDedup l).insertionSort strLe

/-- `x.metadata.title || x.metadata.name` — JS `||` also rejects the empty
string (falsy). -/
def titleOrName (m : EntityMetadata) : String :=
  match m.title with
  | some t => if t = "" then m.name else t
  | none => m.name

/-- `item.spec!.system!` on a multisig entity, modelled as a failing
dereference when `spec` or `spec.system` is absent. -/
def getSystemRef (e : Entity) : Option String :=
  e.spec.bind (fun s => s.system)

/-- The relation filter of `collectSigners`:
`r.type === RELATION_OWNED_BY && parseEntityRef(r.targetRef).kind !== 'group'`
(`RELATION_OWNED_BY = 'ownedBy'`). -/
def signerRelationsOf (multisig : Entity) : List Relation :=
  (relList multisig).filter
    (fun r => r.type == "ownedBy" && parseRefKind r.targetRef != "group")

/-- The map body of `collectSigners`: resolve the signer
(`this.entities.find(...)!` followed by `signer.spec!.owner` — both crash when
missing), then look the signer's declared owner up (`find` with an undefined
owner reference simply misses, so an unresolved owner yields `owner := none`
without failing). -/
def resolveSigner (entities : List Entity) (r : Relation) : Option MultisigSigner :=
  match entityFind entities r.targetRef with
  | none => none
  | some signer =>
    match signer.spec with
    | none => none
    | some sp =>
      some { signer := signer,
             owner := match sp.owner with
               | none => none
               | some ownerRef => entityFind entities ownerRef }

/-- The sort key `a.owner.metadata.name` (total on entries whose owner is
present; the `getD` default is never reached in a sorted list of length ≥ 2). -/
def ownerNameD (s : MultisigSigner) : String :=
  (s.owner.map (fun o => o.metadata.name)).getD ""

/-- The comparator relation of the signers sort. -/
def signerLe (a b : MultisigSigner) : Prop :=
  strLe (ownerNameD a) (ownerNameD b)

instance (a b : MultisigSigner) : Decidable (signerLe a b) :=
  inferInstanceAs (Decidable (strLe (ownerNameD a) (ownerNameD b)))

/-- `.sort((a, b) => a.owner.metadata.name.localeCompare(b.owner.metadata.name))`:
with fewer than two elements the comparator never runs; with two or more every
element is compared at least once, so an entry whose `owner` is `undefined`
crashes the sort. -/
def sortSigners (l : List MultisigSigner) : Option (List MultisigSigner) :=
  if l.length ≤ 1 then some l
  else if l.any (fun s => s.owner.isNone) then none
  else some (l.insertionSort signerLe)

/-- `collectSigners(multisig)`. -/
def collectSigners (entities : List Entity) (multisig : Entity) :
    Option (List MultisigSigner) :=
  (mapO (resolveSigner entities) (signerRelationsOf multisig)).bind sortSigners

/-- The relation filter of `collectComponents`:
`r.type === RELATION_HAS_PART && parseEntityRef(r.targetRef).kind === 'component'`
(`RELATION_HAS_PART = 'hasPart'`). -/
def componentRelationsOf (system : Entity) : List Relation :=
  (relList system).filter
    (fun r => r.type == "hasPart" && parseRefKind r.targetRef == "component")

/-- The comparator relation of the components sort. -/
def componentLe (a b : ComponentMultisigs) : Prop :=
  strLe a.component.metadata.name b.component.metadata.name

instance (a b : ComponentMultisigs) : Decidable (componentLe a b) :=
  inferInstanceAs (Decidable (strLe a.component.metadata.name b.component.metadata.name))

/-- The map body of `collectComponents`: resolve the component
(`this.entities.find(...)!`, crash when missing), then select the multisigs
with an `apiProvidedBy` relation to this component — **kept in input-entity
order, not sorted** — and collect each one's signers. -/
def buildComponent (entities multisigs : List Entity) (componentRef : Relation) :
    Option ComponentMultisigs :=
  match entityFind entities componentRef.targetRef with
  | none => none
  | some component =>
    match mapO
        (fun ms => (collectSigners entities ms).map
          (fun signers => { entity := ms, signers := signers : MultisigInfo }))
        (multisigs.filter
          (fun item => (relList item).any
            (fun r => r.type == "apiProvidedBy" && r.targetRef == componentRef.targetRef))) with
    | none => none
    | some msInfos =>
      some { title := titleOrName component.metadata, component := component,
             multisigs := msInfos }

/-- `collectComponents(system)`: build each component, then
`.sort((a, b) => a.component.metadata.name.localeCompare(b.component.metadata.name))`. -/
def collectComponents (entities multisigs : List Entity) (system : Entity) :
    Option (List ComponentMultisigs) :=
  (mapO (buildComponent entities multisigs) (componentRelationsOf system)).map
    (fun comps => comps.insertionSort componentLe)

/-- The comparator relation of the systems sort. -/
def systemLe (a b : SystemComponents) : Prop :=
  strLe a.system.metadata.name b.system.metadata.name

instance (a b : SystemComponents) : Decidable (systemLe a b) :=
  inferInstanceAs (Decidable (strLe a.system.metadata.name b.system.metadata.name))

/-- The map body of `collectSystems`: resolve the system entity
(`this.entities.find(...)!`, crash when missing) and collect its components. -/
def buildSystem (entities multisigs : List Entity) (systemRef : String) :
    Option SystemComponents :=
  match entityFind entities systemRef with
  | none => none
  | some system =>
    match collectComponents entities multisigs system with
    | none => none
    | some components =>
      some { title := titleOrName system.metadata, system := system,
             components := components }

/-- `collectSystems()`: normalize the multisigs' declared system references,
build each system, then
`.sort((a, b) => a.system.metadata.name.localeCompare(b.system.metadata.name))`. -/
def collectSystems (entities : List Entity) : Option (List SystemComponents) :=
  let multisigs := multisigsOf entities
  match mapO getSystemRef multisigs with
  | none => none
  | some refsRaw =>
    (mapO (buildSystem entities multisigs) (normalizeEntities refsRaw)).map
      (fun systems => systems.insertionSort systemLe)

/-- The `MultisigsCollector` constructor: stores the entity list, filters the
multisigs and runs `collectSystems` — there is no entity index and no
duplicate-reference check. -/
def mkMultisigsCollector (entities : List Entity) : Option (List SystemComponents) :=
  collectSystems entities

/-! ## Concrete inputs used by counterexamples and witnesses -/

/-- A contract entity of the current repository whose source directory is
`contracts` (the annotation has the seven-segment
`url:https://github.com/<org>/<repo>/tree/<branch>` prior part). -/
def entC1 : Entity :=
  { kind := "Component",
    metadata := { ns := "default", name := "foo", title := none,
                  tags := some ["solidity"],
                  annotations := some
                    [(sourceLocationKey, "url:https://github.com/org/repo/tree/main/contracts/")] },
    spec := some { type := some "contract", system := none, owner := none },
    relations := none }

/-- File-existence predicate: the marker exists exactly in directory `a/b`. -/
def exC2 : String → Bool := fun p => p == "a/b/package.json"

/-- An always-true file-existence predicate. -/
def exTrue : String → Bool := fun _ => true

/-- The repository URL matching `entC1`'s source location. -/
def repoW : String := "https://github.com/org/repo"

/-- The matrix row `generateComponentMatrix` produces for `entC1` under
`exTrue` (the marker is found at the first probe, and the `finally`-pop
empties `dirs`, so `nodeRoot` is the `./` fallback). -/
def rowC6 : MatrixEntry :=
  { name := "foo", tags := some ["solidity"], path := "contracts",
    nodeRoot := "./", runSlither := true }

/-- A contract entity of the current repository with no tags list. -/
def entNoTags : Entity :=
  { kind := "Component",
    metadata := { ns := "default", name := "bar", title := none,
                  tags := none,
                  annotations := some
                    [(sourceLocationKey, "url:https://github.com/org/repo/tree/main/contracts/")] },
    spec := some { type := some "contract", system := none, owner := none },
    relations := none }

/-- A contract entity with no source-location annotation. -/
def entNoAnn : Entity :=
  { kind := "Component",
    metadata := { ns := "default", name := "baz", title := none,
                  tags := some [], annotations := none },
    spec := some { type := some "contract", system := none, owner := none },
    relations := none }

/-- System `s` with one `hasPart` component relation. -/
def sysS : Entity :=
  { kind := "System",
    metadata := { ns := "d", name := "s", title := none, tags := none, annotations := none },
    spec := none,
    relations := some [{ type := "hasPart", targetRef := "component:d/c" }] }

/-- Component `c`. -/
def compC : Entity :=
  { kind := "Component",
    metadata := { ns := "d", name := "c", title := none, tags := none, annotations := none },
    spec := none, relations := none }

/-- Multisig API `a1` in system `s`, provided by component `c`, owned by user
`u`. -/
def apiA : Entity :=
  { kind := "API",
    metadata := { ns := "d", name := "a1", title := none, tags := none, annotations := none },
    spec := some { type := some "multisig-deployment", system := some "system:d/s", owner := none },
    relations := some [{ type := "apiProvidedBy", targetRef := "component:d/c" },
                       { type := "ownedBy", targetRef := "user:d/u" }] }

/-- Multisig API `a2` in system `s`, provided by component `c`, with no
owners. -/
def apiB : Entity :=
  { kind := "API",
    metadata := { ns := "d", name := "a2", title := none, tags := none, annotations := none },
    spec := some { type := some "multisig-deployment", system := some "system:d/s", owner := none },
    relations := some [{ type := "apiProvidedBy", targetRef := "component:d/c" }] }

/-- Signer user `u`, whose declared owner reference `group:d/o` resolves to no
entity in the sets below. -/
def userU : Entity :=
  { kind := "User",
    metadata := { ns := "d", name := "u", title := none, tags := none, annotations := none },
    spec := some { type := none, system := none, owner := some "group:d/o" },
    relations := none }

/-- Entity set with a dangling owner reference (`group:d/o` does not resolve). -/
def entsC4 : List Entity := [sysS, compC, apiA, userU]

/-- The hierarchy the collector builds for `entsC4`: the sole signer entry has
no owner. -/
def hierC4 : List SystemComponents :=
  [{ title := "s", system := sysS,
     components := [{ title := "c", component := compC,
                      multisigs := [{ entity := apiA,
                                      signers := [{ signer := userU, owner := none }] }] }] }]

/-- A multisig API whose declared system reference `system:d/x` resolves to no
entity. -/
def apiX : Entity :=
  { kind := "API",
    metadata := { ns := "d", name := "x", title := none, tags := none, annotations := none },
    spec := some { type := some "multisig-deployment", system := some "system:d/x", owner := none },
    relations := none }

def entsC4W : List Entity := [apiX]

/-- Two orderings of the same entity set (multisigs `a1` and `a2` swapped). -/
def entsC5a : List Entity := [sysS, compC, apiA, apiB, userU]

def entsC5b : List Entity := [sysS, compC, apiB, apiA, userU]

/-- Two **distinct** system entities with the same canonical reference
`system:d/s`. -/
def sysS1 : Entity :=
  { kind := "System",
    metadata := { ns := "d", name := "s", title := some "Sys One", tags := none,
                  annotations := none },
    spec := none, relations := none }

def sysS2 : Entity :=
  { kind := "System",
    metadata := { ns := "d", name := "s", title := some "Sys Two", tags := none,
                  annotations := none },
    spec := none, relations := none }

/-- Entity set with duplicate reference strings (`sysS1` and `sysS2`). -/
def entsC7 : List Entity := [sysS1, sysS2, apiB]

/-- Group `o`, the owner of user `u`. -/
def grpO : Entity :=
  { kind := "Group",
    metadata := { ns := "d", name := "o", title := none, tags := none, annotations := none },
    spec := none, relations := none }

/-- Entity set in which user `u`'s owner resolves (to `grpO`). -/
def entsC8 : List Entity := [userU, grpO]

/-- A multisig with one user-kind and one group-kind `ownedBy` relation. -/
def msC8 : Entity :=
  { kind := "API",
    metadata := { ns := "d", name := "m", title := none, tags := none, annotations := none },
    spec := some { type := some "multisig-deployment", system := some "system:d/s", owner := none },
    relations := some [{ type := "ownedBy", targetRef := "user:d/u" },
                       { type := "ownedBy", targetRef := "group:d/g" }] }

/-- The signer list collected for `msC8` over `entsC8`. -/
def resC8 : List MultisigSigner := [{ signer := userU, owner := some grpO }]

/-- Entity set in which system `s` resolves but its component reference
`component:d/c` does not (no component entity present). -/
def entsCompW : List Entity := [sysS, apiB]

/-- Entity set in which system, component and multisig resolve but the
multisig's signer reference `user:d/u` does not (no user entity present). -/
def entsSignW : List Entity := [sysS, compC, apiA]

/-- A second signer user `v` whose declared owner reference `group:d/p` is
also unresolved. -/
def userV : Entity :=
  { kind := "User",
    metadata := { ns := "d", name := "v", title := none, tags := none, annotations := none },
    spec := some { type := none, system := none, owner := some "group:d/p" },
    relations := none }

/-- Entity set containing two signers whose owner references both dangle. -/
def entsOwnW : List Entity := [userU, userV]

/-- A multisig with two user-kind `ownedBy` relations (both signers resolve,
both owners dangle). -/
def msOwnW : Entity :=
  { kind := "API",
    metadata := { ns := "d", name := "w", title := none, tags := none, annotations := none },
    spec := some { type := some "multisig-deployment", system := some "system:d/s", owner := none },
    relations := some [{ type := "ownedBy", targetRef := "user:d/u" },
                       { type := "ownedBy", targetRef := "user:d/v" }] }

/-- The resolved-but-ownerless signer entries for `msOwnW` over `entsOwnW`,
before the sort runs. -/
def midsOwnW : List MultisigSigner :=
  [{ signer := userU, owner := none }, { signer := userV, owner := none }]

/-! ## Helper lemmas -/

theorem mapO_eq_none_of_mem {f : α → Option β} :
    ∀ {l : List α} {a : α}, a ∈ l → f a = none → mapO f l = none := by
  intro l
  induction l with
  | nil => intro a ha _; cases ha
  | cons b t ih =>
    intro a ha hfa
    rcases List.mem_cons.mp ha with rfl | hat
    · simp [mapO, hfa]
    · cases hfb : f b with
      | none => simp [mapO, hfb]
      | some v => simp [mapO, hfb, ih hat hfa]

theorem mapO_mem {f : α → Option β} :
    ∀ {l : List α} {l' : List β}, mapO f l = some l' →
      ∀ {b : β}, b ∈ l' → ∃ a, a ∈ l ∧ f a = some b := by
  intro l
  induction l with
  | nil =>
    intro l' h b hb
    simp [mapO] at h
    subst h
    cases hb
  | cons x t ih =>
    intro l' h b hb
    unfold mapO at h
    cases hfx : f x with
    | none => rw [hfx] at h; cases h
    | some v =>
      rw [hfx] at h
      cases hmt : mapO f t with
      | none => rw [hmt] at h; cases h
      | some vs =>
        rw [hmt] at h
        obtain rfl := Option.some.inj h
        rcases List.mem_cons.mp hb with rfl | hbt
        · exact ⟨x, List.mem_cons_self x t, hfx⟩
        · obtain ⟨a, hat, hfa⟩ := ih hmt hbt
          exact ⟨a, List.mem_cons_of_mem x hat, hfa⟩

theorem mapO_congr {f g : α → Option β} :
    ∀ {l : List α}, (∀ a ∈ l, f a = g a) → mapO f l = mapO g l := by
  intro l
  induction l with
  | nil => intro _; rfl
  | cons x t ih =>
    intro h
    unfold mapO
    rw [h x (List.mem_cons_self x t), ih (fun a ha => h a (List.mem_cons_of_mem x ha))]

theorem mem_jsSetDedupAux {a : String} :
    ∀ {l seen : List String}, a ∈ jsSetDedupAux seen l ↔ a ∈ l ∧ a ∉ seen := by
  intro l
  induction l with
  | nil => intro seen; simp [jsSetDedupAux]
  | cons b t ih =>
    intro seen
    by_cases hb : b ∈ seen
    · rw [jsSetDedupAux, if_pos hb, ih]
      constructor
      · rintro ⟨hat, hns⟩; exact ⟨List.mem_cons_of_mem b hat, hns⟩
      · rintro ⟨hab, hns⟩
        rcases List.mem_cons.mp hab with rfl | hat
        · exact absurd hb hns
        · exact ⟨hat, hns⟩
    · rw [jsSetDedupAux, if_neg hb]
      constructor
      · intro hmem
        rcases List.mem_cons.mp hmem with rfl | haux
        · exact ⟨List.mem_cons_self a t, hb⟩
        · obtain ⟨hat, hns⟩ := ih.mp haux
          refine ⟨List.mem_cons_of_mem b hat, fun hs => hns (List.mem_cons_of_mem b hs)⟩
      · rintro ⟨hab, hns⟩
        rcases List.mem_cons.mp hab with rfl | hat
        · exact List.mem_cons_self a _
        · by_cases hab2 : a = b
          · subst hab2; exact List.mem_cons_self a _
          · exact List.mem_cons_of_mem b
              (ih.mpr ⟨hat, by simp [List.mem_cons, hab2, hns]⟩)

theorem nodup_jsSetDedupAux :
    ∀ (l seen : List String), (jsSetDedupAux seen l).Nodup := by
  intro l
  induction l with
  | nil => intro seen; simp [jsSetDedupAux]
  | cons b t ih =>
    intro seen
    by_cases hb : b ∈ seen
    · rw [jsSetDedupAux, if_pos hb]; exact ih seen
    · rw [jsSetDedupAux, if_neg hb]
      refine List.nodup_cons.mpr ⟨?_, ih (b :: seen)⟩
      intro hmem
      exact (mem_jsSetDedupAux.mp hmem).2 (List.mem_cons_self b seen)

theorem mem_jsSetDedup {a : String} {l : List String} :
    a ∈ jsSetDedup l ↔ a ∈ l := by
  rw [jsSetDedup, mem_jsSetDedupAux]
  simp

theorem nodup_jsSetDedup (l : List String) : (jsSetDedup l).Nodup :=
  nodup_jsSetDedupAux l []

instance : IsTotal MultisigSigner signerLe :=
  ⟨fun a b => le_total (ownerNameD a).data (ownerNameD b).data⟩

instance : IsTrans MultisigSigner signerLe :=
  ⟨fun _ _ _ h1 h2 => le_trans h1 h2⟩

theorem buildRow_forceAll_const (ex : String → Bool) (fuel : Nat)
    (cc cc' : List Entity) (item : Entity) :
    buildRow ex fuel cc true item = buildRow ex fuel cc' true item := by
  cases htags : item.metadata.tags <;> simp [buildRow, htags]

theorem buildRow_eq_some {ex : String → Bool} {fuel : Nat} {cc : List Entity}
    {fa : Bool} {item : Entity} {row : MatrixEntry}
    (h : buildRow ex fuel cc fa item = some row) :
    row.tags = item.metadata.tags ∧
    ∃ tags, item.metadata.tags = some tags ∧
      row.runSlither = ((! tags.contains "near") && (fa || cc.contains item)) := by
  cases htags : item.metadata.tags with
  | none => simp [buildRow, htags] at h
  | some tags =>
    cases hdir : sourceLocationDir item with
    | none => simp [buildRow, htags, hdir] at h
    | some dir =>
      cases hroot : findRoot ex dir "package.json" fuel with
      | none => simp [buildRow, htags, hdir, hroot] at h
      | some root =>
        simp only [buildRow, htags, hdir, hroot] at h
        obtain rfl := (Option.some.inj h).symm
        exact ⟨rfl, tags, rfl, rfl⟩

theorem resolveSigner_eq_some {entities : List Entity} {r : Relation}
    {s : MultisigSigner} (h : resolveSigner entities r = some s) :
    entityFind entities r.targetRef = some s.signer ∧
    ∃ sp, s.signer.spec = some sp ∧
      s.owner = Option.bind sp.owner (entityFind entities) := by
  cases hf : entityFind entities r.targetRef with
  | none => simp [resolveSigner, hf] at h
  | some signer =>
    cases hsp : signer.spec with
    | none => simp [resolveSigner, hf, hsp] at h
    | some sp =>
      simp only [resolveSigner, hf, hsp] at h
      obtain rfl := (Option.some.inj h).symm
      refine ⟨by simp [hf], sp, by simpa using hsp, ?_⟩
      cases sp.owner <;> rfl

theorem sortSigners_eq_some {l res : List MultisigSigner}
    (h : sortSigners l = some res) :
    res.Perm l ∧ res.Sorted signerLe := by
  unfold sortSigners at h
  by_cases hlen : l.length ≤ 1
  · rw [if_pos hlen] at h
    obtain rfl := Option.some.inj h
    refine ⟨List.Perm.refl _, ?_⟩
    rcases l with _ | ⟨a, _ | ⟨b, t⟩⟩
    · exact List.sorted_nil
    · exact List.sorted_singleton a
    · simp at hlen
  · rw [if_neg hlen] at h
    by_cases hnone : l.any (fun s => s.owner.isNone)
    · rw [if_pos hnone] at h; cases h
    · rw [if_neg hnone] at h
      obtain rfl := Option.some.inj h
      exact ⟨List.perm_insertionSort signerLe l, List.sorted_insertionSort signerLe l⟩

theorem findRootLoop_allFalse (rootFile : String) :
    ∀ (fuel : Nat) (dirs : List String),
      findRootLoop (fun _ => false) rootFile dirs fuel = none := by
  intro fuel
  induction fuel with
  | zero => intro dirs; rfl
  | succ n ih => intro dirs; simp [findRootLoop, ih]

theorem collectSigners_none_of_dangling_signer {entities : List Entity}
    {ms : Entity} {sr : Relation} (h1 : sr ∈ signerRelationsOf ms)
    (h2 : entityFind entities sr.targetRef = none) :
    collectSigners entities ms = none := by
  unfold collectSigners
  rw [mapO_eq_none_of_mem h1 (by simp [resolveSigner, h2])]
  rfl

theorem collectSigners_none_of_ownerless_pair {entities : List Entity}
    {ms : Entity} {mids : List MultisigSigner}
    (h1 : mapO (resolveSigner entities) (signerRelationsOf ms) = some mids)
    (h2 : 2 ≤ mids.length) (h3 : ∃ s ∈ mids, s.owner = none) :
    collectSigners entities ms = none := by
  unfold collectSigners
  rw [h1]
  have hlen : ¬ mids.length ≤ 1 := by omega
  have hany : mids.any (fun s => s.owner.isNone) = true := by
    obtain ⟨s, hsm, hso⟩ := h3
    exact List.any_eq_true.mpr ⟨s, hsm, by simp [hso]⟩
  show sortSigners mids = none
  unfold sortSigners
  rw [if_neg hlen, if_pos hany]

theorem buildComponent_none_of_dangling_component {entities multisigs : List Entity}
    {cr : Relation} (h : entityFind entities cr.targetRef = none) :
    buildComponent entities multisigs cr = none := by
  simp [buildComponent, h]

theorem buildComponent_none_of_collectSigners_none {entities multisigs : List Entity}
    {cr : Relation} {ms : Entity}
    (hms : ms ∈ multisigs.filter
      (fun item => (relList item).any
        (fun rel => rel.type == "apiProvidedBy" && rel.targetRef == cr.targetRef)))
    (hcs : collectSigners entities ms = none) :
    buildComponent entities multisigs cr = none := by
  cases hc : entityFind entities cr.targetRef with
  | none => simp [buildComponent, hc]
  | some component =>
    simp only [buildComponent, hc]
    rw [mapO_eq_none_of_mem hms (by simp [hcs])]

theorem collectComponents_none_of_buildComponent_none
    {entities multisigs : List Entity} {system : Entity} {cr : Relation}
    (hcr : cr ∈ componentRelationsOf system)
    (hbc : buildComponent entities multisigs cr = none) :
    collectComponents entities multisigs system = none := by
  unfold collectComponents
  rw [mapO_eq_none_of_mem hcr hbc]
  rfl

theorem buildSystem_none_of_collectComponents_none
    {entities multisigs : List Entity} {r : String} {system : Entity}
    (hr : entityFind entities r = some system)
    (hcc : collectComponents entities multisigs system = none) :
    buildSystem entities multisigs r = none := by
  simp [buildSystem, hr, hcc]

theorem collectSystems_none_of_buildSystem_none {entities : List Entity}
    {refsRaw : List String} {r : String}
    (h1 : mapO getSystemRef (multisigsOf entities) = some refsRaw)
    (h2 : r ∈ normalizeEntities refsRaw)
    (h3 : buildSystem entities (multisigsOf entities) r = none) :
    collectSystems entities = none := by
  simp only [collectSystems, h1]
  rw [mapO_eq_none_of_mem h2 h3]
  rfl

/-! ## Claim theorems -/

/-- C1: the claim says a candidate is impacted iff some changed file starts
with its repository-relative source directory; the code instead tests the
changed files against the full `url:...` source-location annotation, so the
repo-relative changed file `contracts/Foo.sol` does **not** mark `entC1`
(source directory `contracts`) as changed, though the claim says it must. -/
theorem changedContracts_full_url_mismatch :
    sourceLocationDir entC1 = some "contracts" ∧
    specImpacted entC1 ["contracts/Foo.sol"] = true ∧
    changedContractsOf [entC1] ["contracts/Foo.sol"] = [] := by
  decide

/-- C2: the claim says `findRoot("a/b/c/file.sol", "package.json")` returns
`"a/b"` when the marker exists exactly at `a/b/package.json`; the `finally`
clause pops `dirs` before the `break` takes effect, so the code returns `"a"`,
the parent of the directory in which the marker was found. -/
theorem findRoot_returns_parent_of_marker_dir :
    exC2 "a/b/package.json" = true ∧
    findRoot exC2 "a/b/c/file.sol" "package.json" 10 = some "a" := by
  decide

/-- C3: the claim says that when no ancestor directory contains the marker,
`findRoot` terminates and returns the repository root; in the code the loop
condition `dirs.length >= 0` is always true and `pop()` on the empty array is
a no-op, so with an existence predicate that never holds the loop never exits:
for every fuel bound the loop is still running (`none`). -/
theorem findRoot_no_marker_never_terminates (fileName rootFile : String) (fuel : Nat) :
    findRoot (fun _ => false) fileName rootFile fuel = none := by
  unfold findRoot
  rw [findRootLoop_allFalse]

/-- C6: with `forceAll = true` the produced matrix does not depend on the
changed-file list at all (every candidate is impacted), and each row's
`runSlither` flag is the tag predicate (`!tags.includes('near')`) ANDed with
the impacted decision (`true`). -/
theorem generateComponentMatrix_forceAll_impacts_all
    (ex : String → Bool) (fuel : Nat) (items : List Entity) (repoUrl : String)
    (changedFiles changedFiles' : List String) (rows : List MatrixEntry)
    (row : MatrixEntry) (tags : List String)
    (hrows : generateComponentMatrix ex fuel items repoUrl changedFiles true = some rows)
    (hrow : row ∈ rows) (htags : row.tags = some tags) :
    generateComponentMatrix ex fuel items repoUrl changedFiles true =
      generateComponentMatrix ex fuel items repoUrl changedFiles' true ∧
    row.runSlither = ((! tags.contains "near") && true) := by
  constructor
  · unfold generateComponentMatrix
    exact mapO_congr (fun item _ => buildRow_forceAll_const ex fuel _ _ item)
  · unfold generateComponentMatrix at hrows
    obtain ⟨item, _, hbr⟩ := mapO_mem hrows hrow
    obtain ⟨htagsrow, tags2, htags2, hrs⟩ := buildRow_eq_some hbr
    have heq : tags2 = tags := by
      rw [htagsrow, htags2] at htags
      exact Option.some.inj htags
    subst heq
    simpa using hrs

/-- C6 witness: concrete run with one contract entity. -/
theorem generateComponentMatrix_forceAll_impacts_all_witness :
    (generateComponentMatrix exTrue 5 [entC1] repoW ["x"] true =
      generateComponentMatrix exTrue 5 [entC1] repoW [] true) ∧
    rowC6.runSlither = ((! (["solidity"] : List String).contains "near") && true) :=
  generateComponentMatrix_forceAll_impacts_all exTrue 5 [entC1] repoW ["x"] []
    [rowC6] rowC6 ["solidity"] (by decide) (by decide) (by decide)

/-- C9: a candidate without the source-location annotation never yields a
matrix row: `buildRow` fails (`none`) instead of producing a row with an empty
or guessed path. -/
theorem buildRow_missing_source_location_fails (ex : String → Bool) (fuel : Nat)
    (cc : List Entity) (fa : Bool) (item : Entity)
    (h : sourceLocation item = none) :
    buildRow ex fuel cc fa item = none := by
  cases htags : item.metadata.tags with
  | none => simp [buildRow, htags]
  | some tags => simp [buildRow, htags, sourceLocationDir, h]

/-- C9 witness. -/
theorem buildRow_missing_source_location_fails_witness :
    buildRow exTrue 1 [] false entNoAnn = none :=
  buildRow_missing_source_location_fails exTrue 1 [] false entNoAnn (by decide)

/-- C10: a candidate contract entity without a tags list makes the whole
matrix generation fail (the per-row flag computation dereferences the absent
tags list), rather than producing a row for it. -/
theorem generateComponentMatrix_missing_tags_fails
    (ex : String → Bool) (fuel : Nat) (items : List Entity) (repoUrl : String)
    (changedFiles : List String) (forceAll : Bool) (item : Entity)
    (h1 : item ∈ contractItemsOf items repoUrl) (h2 : item.metadata.tags = none) :
    generateComponentMatrix ex fuel items repoUrl changedFiles forceAll = none := by
  unfold generateComponentMatrix
  exact mapO_eq_none_of_mem h1 (by simp [buildRow, h2])

/-- C10 witness. -/
theorem generateComponentMatrix_missing_tags_fails_witness :
    generateComponentMatrix exTrue 1 [entNoTags] repoW ["f"] false = none :=
  generateComponentMatrix_missing_tags_fails exTrue 1 [entNoTags] repoW ["f"] false
    entNoTags (by decide) rfl

/-- C4 counterexample: in `entsC4` the signer `userU` declares the mandatory
owner reference `group:d/o`, which resolves to no entity; the claim says the
aggregation must fail, but the collector succeeds and returns a hierarchy in
which the signer entry simply has no owner. -/
theorem collectSystems_dangling_owner_succeeds :
    (userU.spec.bind (fun sp => sp.owner)) = some "group:d/o" ∧
    entityFind entsC4 "group:d/o" = none ∧
    collectSystems entsC4 = some hierC4 := by
  decide

/-- C4 (amended): an unresolvable **system**, **component**, or **signer**
reference makes the aggregation fail (no hierarchy is returned).  An
unresolvable **owner** reference also fails the aggregation when the affected
multisig has at least two signer entries (the signers-sort comparator
dereferences the missing owner); with a single signer entry the aggregation
instead succeeds with an ownerless entry — the counterexample above. -/
theorem collectSystems_dangling_reference_fails :
    (∀ (entities : List Entity) (refsRaw : List String) (r : String),
        mapO getSystemRef (multisigsOf entities) = some refsRaw →
        r ∈ normalizeEntities refsRaw →
        entityFind entities r = none →
        collectSystems entities = none) ∧
    (∀ (entities : List Entity) (refsRaw : List String) (r : String)
        (system : Entity) (cr : Relation),
        mapO getSystemRef (multisigsOf entities) = some refsRaw →
        r ∈ normalizeEntities refsRaw →
        entityFind entities r = some system →
        cr ∈ componentRelationsOf system →
        entityFind entities cr.targetRef = none →
        collectSystems entities = none) ∧
    (∀ (entities : List Entity) (refsRaw : List String) (r : String)
        (system : Entity) (cr : Relation) (ms : Entity) (sr : Relation),
        mapO getSystemRef (multisigsOf entities) = some refsRaw →
        r ∈ normalizeEntities refsRaw →
        entityFind entities r = some system →
        cr ∈ componentRelationsOf system →
        ms ∈ (multisigsOf entities).filter
          (fun item => (relList item).any
            (fun rel => rel.type == "apiProvidedBy" && rel.targetRef == cr.targetRef)) →
        sr ∈ signerRelationsOf ms →
        entityFind entities sr.targetRef = none →
        collectSystems entities = none) ∧
    (∀ (entities : List Entity) (ms : Entity) (mids : List MultisigSigner),
        mapO (resolveSigner entities) (signerRelationsOf ms) = some mids →
        2 ≤ mids.length →
        (∃ s ∈ mids, s.owner = none) →
        collectSigners entities ms = none) := by
  refine ⟨?_, ?_, ?_, ?_⟩
  · intro entities refsRaw r h1 h2 h3
    exact collectSystems_none_of_buildSystem_none h1 h2 (by simp [buildSystem, h3])
  · intro entities refsRaw r system cr h1 h2 h3 h4 h5
    exact collectSystems_none_of_buildSystem_none h1 h2
      (buildSystem_none_of_collectComponents_none h3
        (collectComponents_none_of_buildComponent_none h4
          (buildComponent_none_of_dangling_component h5)))
  · intro entities refsRaw r system cr ms sr h1 h2 h3 h4 h5 h6 h7
    exact collectSystems_none_of_buildSystem_none h1 h2
      (buildSystem_none_of_collectComponents_none h3
        (collectComponents_none_of_buildComponent_none h4
          (buildComponent_none_of_collectSigners_none h5
            (collectSigners_none_of_dangling_signer h6 h7))))
  · intro entities ms mids h1 h2 h3
    exact collectSigners_none_of_ownerless_pair h1 h2 h3

/-- C4 witness: a dangling system reference (`entsC4W`), a dangling component
reference (`entsCompW`), a dangling signer reference (`entsSignW`), and a
two-signer multisig with dangling owner references (`entsOwnW`, `msOwnW`). -/
theorem collectSystems_dangling_reference_fails_witness :
    collectSystems entsC4W = none ∧
    collectSystems entsCompW = none ∧
    collectSystems entsSignW = none ∧
    collectSigners entsOwnW msOwnW = none := by
  obtain ⟨h1, h2, h3, h4⟩ := collectSystems_dangling_reference_fails
  refine ⟨?_, ?_, ?_, ?_⟩
  · exact h1 entsC4W ["system:d/x"] "system:d/x" (by decide) (by decide) (by decide)
  · exact h2 entsCompW ["system:d/s"] "system:d/s" sysS
      { type := "hasPart", targetRef := "component:d/c" }
      (by decide) (by decide) (by decide) (by decide) (by decide)
  · exact h3 entsSignW ["system:d/s"] "system:d/s" sysS
      { type := "hasPart", targetRef := "component:d/c" } apiA
      { type := "ownedBy", targetRef := "user:d/u" }
      (by decide) (by decide) (by decide) (by decide) (by decide) (by decide) (by decide)
  · exact h4 entsOwnW msOwnW midsOwnW (by decide) (by decide) (by decide)

/-- C5 counterexample: `entsC5a` and `entsC5b` are permutations of each other
(the two multisigs `a1`, `a2` are swapped), but the hierarchies differ: the
multisig list under a component keeps input-entity order and is never sorted. -/
theorem collectSystems_not_permutation_invariant :
    entsC5a.Perm entsC5b ∧ collectSystems entsC5a ≠ collectSystems entsC5b := by
  decide

/-- C5 (amended): the deduplicated, sorted system-reference list
(`normalizeEntities`) is permutation-invariant; the full hierarchy is not,
by the counterexample above. -/
theorem normalizeEntities_perm_invariant (l₁ l₂ : List String) (h : l₁.Perm l₂) :
    normalizeEntities l₁ = normalizeEntities l₂ := by
  have hd : (jsSetDedup l₁).Perm (jsSetDedup l₂) := by
    refine (List.perm_ext_iff_of_nodup (nodup_jsSetDedup l₁) (nodup_jsSetDedup l₂)).mpr ?_
    intro a
    rw [mem_jsSetDedup, mem_jsSetDedup]
    exact h.mem_iff
  have hp : (normalizeEntities l₁).Perm (normalizeEntities l₂) := by
    unfold normalizeEntities
    exact ((List.perm_insertionSort strLe (jsSetDedup l₁)).trans hd).trans
      (List.perm_insertionSort strLe (jsSetDedup l₂)).symm
  exact List.eq_of_perm_of_sorted hp
    (List.sorted_insertionSort strLe (jsSetDedup l₁))
    (List.sorted_insertionSort strLe (jsSetDedup l₂))

/-- C5 witness. -/
theorem normalizeEntities_perm_invariant_witness :
    normalizeEntities ["b", "a", "b"] = normalizeEntities ["a", "b", "b"] :=
  normalizeEntities_perm_invariant ["b", "a", "b"] ["a", "b", "b"] (by decide)

/-- C7 counterexample: `sysS1` and `sysS2` are two distinct entities with the
same canonical reference; the claim says construction must fail with a
configuration error, but the collector succeeds and silently keeps the first
of the pair. -/
theorem mkMultisigsCollector_duplicate_refs_no_error :
    sysS1 ≠ sysS2 ∧ stringifyEntityRef sysS1 = stringifyEntityRef sysS2 ∧
    mkMultisigsCollector entsC7 =
      some [{ title := "Sys One", system := sysS1, components := [] }] := by
  decide

/-- C7 (amended): reference lookup returns the **first** entity with the
sought reference in input order, silently, even when a later duplicate
exists. -/
theorem entityFind_first_match_wins (l : List Entity) (a b : Entity)
    (h : stringifyEntityRef a = stringifyEntityRef b) :
    entityFind (a :: l) (stringifyEntityRef b) = some a := by
  unfold entityFind
  exact List.find?_cons_of_pos l (by simp [h])

/-- C7 witness. -/
theorem entityFind_first_match_wins_witness :
    entityFind [sysS1, sysS2] (stringifyEntityRef sysS2) = some sysS1 :=
  entityFind_first_match_wins [sysS2] sysS1 sysS2 (by decide)

/-- C8: every signer entry the collector returns for a multisig stems from an
`ownedBy` relation whose target kind is not `group` (group-kind ownership
contributes nothing), pairs the entity resolved from that relation with the
lookup result of its declared owner, and the returned list is sorted by the
owner's name. -/
theorem collectSigners_excludes_groups_sorted
    (entities : List Entity) (multisig : Entity) (res : List MultisigSigner)
    (h : collectSigners entities multisig = some res) :
    (∀ s ∈ res, ∃ r, r ∈ relList multisig ∧ r.type = "ownedBy" ∧
        parseRefKind r.targetRef ≠ "group" ∧
        entityFind entities r.targetRef = some s.signer ∧
        ∃ sp, s.signer.spec = some sp ∧
          s.owner = Option.bind sp.owner (entityFind entities)) ∧
    res.Sorted signerLe := by
  unfold collectSigners at h
  obtain ⟨mids, hm, hs⟩ := Option.bind_eq_some.mp h
  obtain ⟨hperm, hsorted⟩ := sortSigners_eq_some hs
  refine ⟨?_, hsorted⟩
  intro s hsres
  obtain ⟨r, hrmem, hres⟩ := mapO_mem hm (hperm.subset hsres)
  simp only [signerRelationsOf, List.mem_filter, Bool.and_eq_true, beq_iff_eq,
    bne_iff_ne] at hrmem
  obtain ⟨hrel, hty1, hty2⟩ := hrmem
  obtain ⟨hfind, sp, hsp, howner⟩ := resolveSigner_eq_some hres
  exact ⟨r, hrel, hty1, hty2, hfind, sp, hsp, howner⟩

/-- C8 witness: the signer list collected for `msC8` (one user-kind owner,
one group-kind owner) is the sorted singleton pairing `userU` with `grpO`. -/
theorem collectSigners_excludes_groups_sorted_witness :
    List.Sorted signerLe resC8 :=
  (collectSigners_excludes_groups_sorted entsC8 msC8 resC8 (by decide)).2

end GithubHelpers
